import Mathlib

/-!
Shallow embedding of the Bandcamp code verificator (Python) core:
input sanitization (app/utils.py), credential extraction
(app/auto_extract.py), the browser-driven verification engine and batch
runner (app/verificator.py), and the result sinks (app/utils.py).

Strings are modelled as `List Char` where character-level processing
matters, `String` elsewhere.  External effects (the random delay draw,
the wall clock, the browser/network attempt, browser cookie jars, the
fetched page) are modelled as explicit environment parameters; the
side-effect trace of one verification call is returned as a list of
actions so that "no network activity" and "delay before attempt" are
statable.
-/

namespace BCV

/-- ASCII whitespace stripped by Python str.strip (space, tab, newline,
carriage return, vertical tab, form feed). -/
def isPySpace (c : Char) : Bool :=
  c = ' ' || c = '\t' || c = '\n' || c = '\r' || c = Char.ofNat 11 || c = Char.ofNat 12

/-- Python str.strip, left part. -/
def lstrip (s : List Char) : List Char := s.dropWhile isPySpace

/-- Python str.strip, right part. -/
def rstrip (s : List Char) : List Char := (s.reverse.dropWhile isPySpace).reverse

/-- Python str.strip on a character list. -/
def pyStrip (s : List Char) : List Char := rstrip (lstrip s)

/-- Line-ending normalization of sanitize_codes:
raw_text.replace CRLF with LF, then lone CR with LF (one left-to-right
pass, exactly the effect of the two chained Python replaces). -/
def normalizeNewlines : List Char → List Char
  | [] => []
  | '\r' :: '\n' :: rest => '\n' :: normalizeNewlines rest
  | '\r' :: rest => '\n' :: normalizeNewlines rest
  | c :: rest => c :: normalizeNewlines rest

/-- Python str.split on a single LF separator. -/
def splitNl : List Char → List (List Char)
  | [] => [[]]
  | '\n' :: rest => [] :: splitNl rest
  | c :: rest =>
    match splitNl rest with
    | [] => [[c]]
    | line :: more => (c :: line) :: more

/-- Body of the per-line loop of sanitize_codes: strip the line, skip it
when empty, truncate it when longer than max_length. -/
def sanitizeLine (maxLength : Nat) (line : List Char) : Option (List Char) :=
  let code := pyStrip line
  if code = [] then none
  else if code.length > maxLength then some (code.take maxLength)
  else some code

/-- app/utils.py sanitize_codes: normalize line endings, split into
lines, strip each, drop blanks, truncate over-long codes. -/
def sanitize_codes (raw : List Char) (maxLength : Nat) : List (List Char) :=
  (splitNl (normalizeNewlines raw)).filterMap (sanitizeLine maxLength)

/-- Newline-join of a code list (the inverse direction used to feed a
previous sanitization result back in). -/
def joinNl : List (List Char) → List Char
  | [] => []
  | [x] => x
  | x :: y :: ys => x ++ '\n' :: joinNl (y :: ys)

/-! ## Crumb extraction (app/auto_extract.py CredentialExtractor) -/

/-- Double-quote character. -/
def dq : Char := Char.ofNat 34

/-- Single-quote character. -/
def sq : Char := Char.ofNat 39

/-- Character class of the regex quote alternatives. -/
def isQuoteCh (c : Char) : Bool := c = dq || c = sq

/-- Python regex whitespace class (ASCII part). -/
def isReSpace (c : Char) : Bool :=
  c = ' ' || c = '\t' || c = '\n' || c = '\r' || c = Char.ofNat 11 || c = Char.ofNat 12

/-- Consume a literal character sequence, returning the rest. -/
def matchLit : List Char → List Char → Option (List Char)
  | [], s => some s
  | _, [] => none
  | l :: ls, c :: cs => if c = l then matchLit ls cs else none

/-- Consume one quote character (either kind). -/
def matchQuote : List Char → Option (List Char)
  | [] => none
  | c :: rest => if isQuoteCh c then some rest else none

/-- Consume one colon. -/
def matchColon : List Char → Option (List Char)
  | [] => none
  | c :: rest => if c = ':' then some rest else none

/-- Drop a maximal (greedy) run of regex whitespace. -/
def wsDrop (s : List Char) : List Char := s.dropWhile isReSpace

/-- Greedy capture group of one-or-more non-quote characters followed by
a closing quote of either kind. -/
def captureToQuote (s : List Char) : Option (List Char) :=
  let cap := s.takeWhile (fun c => !(isQuoteCh c))
  let rest := s.dropWhile (fun c => !(isQuoteCh c))
  if cap = [] then none
  else if rest = [] then none
  else some cap

/-- Anchored match of the script/raw pattern quote crumb quote ws colon
ws quote capture quote (the first regex of Method 2, reused as Method 4). -/
def matchCrumbQuotedAt (s : List Char) : Option (List Char) := do
  let s1 ← matchQuote s
  let s2 ← matchLit [ 'c', 'r', 'u', 'm', 'b' ] s1
  let s3 ← matchQuote s2
  let s4 ← matchColon (wsDrop s3)
  let s5 ← matchQuote (wsDrop s4)
  captureToQuote s5

/-- Anchored match of the bare pattern crumb ws colon ws quote capture
quote (the second regex of Method 2). -/
def matchCrumbBareAt (s : List Char) : Option (List Char) := do
  let s1 ← matchLit [ 'c', 'r', 'u', 'm', 'b' ] s
  let s2 ← matchColon (wsDrop s1)
  let s3 ← matchQuote (wsDrop s2)
  captureToQuote s3

/-- The HTML-entity literal written out as characters. -/
def entQuot : List Char := [ '&', 'q', 'u', 'o', 't', ';' ]

/-- Anchored match of Method 3: the entity-escaped JSON fragment
quot-crumb-quot colon quot capture quot, capture being one-or-more
non-ampersand characters. -/
def matchCrumbEntAt (s : List Char) : Option (List Char) := do
  let s1 ← matchLit (entQuot ++ [ 'c', 'r', 'u', 'm', 'b' ] ++ entQuot ++ [ ':' ] ++ entQuot) s
  let cap := s1.takeWhile (fun c => !(c = '&'))
  let rest := s1.dropWhile (fun c => !(c = '&'))
  if cap = [] then none
  else match matchLit entQuot rest with
    | some _ => some cap
    | none => none

/-- re.search: try the anchored matcher at every position left to right
and return the first successful capture. -/
def searchFirst (m : List Char → Option (List Char)) : List Char → Option (List Char)
  | [] => m []
  | c :: rest =>
    match m (c :: rest) with
    | some v => some v
    | none => searchFirst m rest

/-- An element of the parsed page: its attribute list, in source order. -/
def Attrs : Type := List (String × List Char)

/-- The fetched page as seen by extract_crumb_from_page: the parsed
elements in document order, the string contents of the script tags in
document order, and the raw markup text. -/
structure Page where
  elems : List Attrs
  scripts : List (List Char)
  raw : List Char

/-- Attribute lookup on one element. -/
def attrLookup (attrs : Attrs) (key : String) : Option (List Char) :=
  match List.find? (fun p => p.1 = key) attrs with
  | some p => some p.2
  | none => none

/-- Method 1: soup.find on a data-crumb attribute — the first element in
document order carrying the attribute, yielding its value. -/
def findDataCrumb : List Attrs → Option (List Char)
  | [] => none
  | e :: rest =>
    match attrLookup e "data-crumb" with
    | some v => some v
    | none => findDataCrumb rest

/-- Method 2: loop over the script strings in order; per script try the
quoted-key regex first, then the bare-key regex. -/
def scanScripts : List (List Char) → Option (List Char)
  | [] => none
  | s :: rest =>
    match searchFirst matchCrumbQuotedAt s with
    | some v => some v
    | none =>
      match searchFirst matchCrumbBareAt s with
      | some v => some v
      | none => scanScripts rest

/-- extract_crumb_from_page's pattern cascade over a fetched page:
Method 1 (data-crumb attribute), Method 2 (script tags), Method 3
(entity-escaped raw markup), Method 4 (quoted-key regex on raw markup);
first hit wins, later methods run only when all earlier ones missed. -/
def extractCrumbFromHtml (page : Page) : Option (List Char) :=
  match findDataCrumb page.elems with
  | some v => some v
  | none =>
    match scanScripts page.scripts with
    | some v => some v
    | none =>
      match searchFirst matchCrumbEntAt page.raw with
      | some v => some v
      | none => searchFirst matchCrumbQuotedAt page.raw

/-! ## Extractor state and orchestration (app/auto_extract.py) -/

/-- Python truthiness of an optional cookie string: None and the empty
string are falsy. -/
def optTruthy : Option String → Bool
  | some s => !(s = "")
  | none => false

/-- CredentialExtractor working fields. -/
structure ExtractorState where
  client_id : Option String
  session : Option String
  identity : Option String
  crumb : Option String
deriving DecidableEq

/-- The freshly constructed extractor. -/
def initExtractor : ExtractorState :=
  { client_id := none, session := none, identity := none, crumb := none }

/-- One cookie of a browser jar assigned onto the extractor fields
(the name-dispatch inside the jar loop). -/
def setCookie (st : ExtractorState) (nv : String × String) : ExtractorState :=
  if nv.1 = "client_id" then { st with client_id := some nv.2 }
  else if nv.1 = "session" then { st with session := some nv.2 }
  else if nv.1 = "identity" then { st with identity := some nv.2 }
  else st

/-- Fold one whole jar over the extractor fields. -/
def applyJar (st : ExtractorState) (jar : List (String × String)) : ExtractorState :=
  jar.foldl setCookie st

/-- The early-return condition of extract_from_browser: client_id,
session and identity all truthy. -/
def allThreeCookies (st : ExtractorState) : Bool :=
  optTruthy st.client_id && optTruthy st.session && optTruthy st.identity

/-- The browser loop of extract_from_browser over the jars tried in
order; a none jar is a browser whose cookie store raised and is skipped,
fields accumulate across browsers, and the loop returns early as soon as
all three cookies are truthy. -/
def browserLoop (st : ExtractorState) : List (Option (List (String × String))) → Bool × ExtractorState
  | [] => (false, st)
  | none :: rest => browserLoop st rest
  | some jar :: rest =>
    let st2 := applyJar st jar
    if allThreeCookies st2 then (true, st2)
    else browserLoop st2 rest

/-- app/auto_extract.py extract_from_browser: fails fast when
browser_cookie3 is unavailable, otherwise runs the browser loop. -/
def extract_from_browser (available : Bool) (st : ExtractorState)
    (jars : List (Option (List (String × String)))) : Bool × ExtractorState :=
  if !available then (false, st)
  else browserLoop st jars

/-- app/auto_extract.py extract_crumb_from_page: fails fast when
scraping dependencies are unavailable or cookies are not yet set; a
failed navigation (none page) fails; otherwise runs the pattern cascade
and stores the hit. -/
def extract_crumb_from_page (scrapingAvailable : Bool) (st : ExtractorState)
    (nav : Option Page) : Bool × ExtractorState :=
  if !scrapingAvailable then (false, st)
  else if !(optTruthy st.client_id) || !(optTruthy st.session) then (false, st)
  else
    match nav with
    | none => (false, st)
    | some page =>
      match extractCrumbFromHtml page with
      | some v => (true, { st with crumb := some (String.mk v) })
      | none => (false, st)

/-- The credentials dictionary built by auto_extract on its non-empty
path. -/
structure Creds where
  client_id : String
  session : String
  crumb : String
deriving DecidableEq

/-- app/auto_extract.py auto_extract: on browser-extraction failure
returns false with the empty dictionary (none); otherwise attempts crumb
extraction, then packages the fields (falsy fields as empty strings) and
flags success by the truthiness of client_id and session. -/
def auto_extract (available scrapingAvailable : Bool) (st : ExtractorState)
    (jars : List (Option (List (String × String)))) (nav : Option Page) :
    Bool × Option Creds :=
  match extract_from_browser available st jars with
  | (false, _) => (false, none)
  | (true, st1) =>
    let st2 := (extract_crumb_from_page scrapingAvailable st1 nav).2
    let creds : Creds :=
      { client_id := st2.client_id.getD ""
        session := st2.session.getD ""
        crumb := st2.crumb.getD "" }
    (optTruthy st2.client_id && optTruthy st2.session, some creds)

/-! ## Verification engine (app/verificator.py BandcampVerificator) -/

/-- One entry of a response body's errors array, reduced to its optional
reason field (the only field the code reads). -/
abbrev ErrEntry : Type := Option String

/-- The parsed attempt response body: a JSON object (carrying its
optional errors array) when response.json() parses, else the raw text. -/
inductive Body where
  | jdict (errors : Option (List ErrEntry))
  | jtext (s : String)
deriving DecidableEq

/-- Python truthiness of api_body.get applied to errors on a dict body:
true exactly for a present, non-empty errors list. -/
def Body.errorsTruthy : Body → Bool
  | .jdict (some (_ :: _)) => true
  | _ => false

/-- The first error's reason (read only when errorsTruthy holds). -/
def Body.firstReason : Body → Option String
  | .jdict (some (r :: _)) => r
  | _ => none

/-- An exception raised by the browser-driven attempt.  The isTimeout
flag records whether it was a timeout; the Python code catches plain
Exception, so the handler cannot depend on it. -/
structure AttemptExc where
  isTimeout : Bool
  msg : String
deriving DecidableEq

/-- Outcome of the single browser-driven attempt: the intercepted API
response, or a raised exception. -/
inductive AttemptOutcome where
  | response (status : Int) (body : Body)
  | raised (e : AttemptExc)
deriving DecidableEq

/-- Environment of one verify_code call: the value returned by
random.randint for the delay draw, the attempt outcome, and the measured
wall-clock elapsed at completion in milliseconds (nonnegative: the wall
clock is modelled monotone across the call). -/
structure AttemptEnv where
  delayDraw : Int
  outcome : AttemptOutcome
  elapsedMs : Nat
deriving DecidableEq

/-- Verificator delay configuration (min_delay and max_delay fields). -/
structure VerifConfig where
  min_delay : Int
  max_delay : Int
deriving DecidableEq

/-- The result dictionary of verify_code. -/
structure VResult where
  ok : Bool
  status : Int
  delay_sec : Int
  elapsed_ms : Int
  body : Option Body
  error : Option String
  code : String
  success : Bool
deriving DecidableEq

/-- Observable side effects of one verify_code call: the rate-limiting
sleep and the browser/network attempt. -/
inductive Action where
  | sleep (sec : Int)
  | attempt (code : String)
deriving DecidableEq

/-- app/utils.py validate_input restricted to the code field as called
by verify_code: an error exactly when the code is empty after strip. -/
def validate_input_code (code : String) : Option String :=
  if pyStrip code.data = [] then some "Code cannot be empty" else none

/-- app/verificator.py BandcampVerificator.verify_code.  Returns the
result dictionary together with the trace of external actions taken.
The index and total parameters and the log calls only feed logging and
are omitted.  Control flow: invalid code returns immediately with a
zero-delay zero-elapsed failure and no actions; otherwise the drawn
delay is slept, the single attempt runs, a 2xx status is a candidate
success that a truthy errors list overrides to failure, and any raised
exception is caught by the generic handler tagging the error with the
message of the exception. -/
def verify_code (cfg : VerifConfig) (env : AttemptEnv) (code : String) :
    VResult × List Action :=
  match validate_input_code code with
  | some msg =>
    ({ ok := false, status := 0, delay_sec := 0, elapsed_ms := 0, body := none
       error := some ("Invalid code: " ++ msg), code := code, success := false }, [])
  | none =>
    let delay := env.delayDraw
    match env.outcome with
    | .response st body =>
      let ok := decide (200 ≤ st) && decide (st < 300)
      let success := ok && !(Body.errorsTruthy body)
      let err : Option String :=
        if success then none
        else if Body.errorsTruthy body then Body.firstReason body
        else some ("HTTP " ++ toString st)
      ({ ok := ok, status := st, delay_sec := delay, elapsed_ms := (env.elapsedMs : Int)
         body := some body, error := err, code := code, success := success },
       [Action.sleep delay, Action.attempt code])
    | .raised e =>
      ({ ok := false, status := 0, delay_sec := delay, elapsed_ms := (env.elapsedMs : Int)
         body := none, error := some ("Browser automation error: " ++ e.msg), code := code
         success := false },
       [Action.sleep delay, Action.attempt code])

/-- The loop body of verify_batch from a given enumeration index: before
each code consult the stop flag (its value at the idx-th check), on true
break returning what was collected, else verify the code, append its
result and its actions, and continue.  The progress callback only
surfaces results and is omitted. -/
def batchLoop (cfg : VerifConfig) (envs : Nat → AttemptEnv) (stop : Nat → Bool) :
    Nat → List String → List VResult × List Action
  | _, [] => ([], [])
  | idx, code :: rest =>
    if stop idx then ([], [])
    else
      let r := verify_code cfg (envs idx) code
      let tail := batchLoop cfg envs stop (idx + 1) rest
      (r.1 :: tail.1, r.2 ++ tail.2)

/-- app/verificator.py BandcampVerificator.verify_batch: strictly
sequential loop over the codes from index 0.  An absent stop flag is the
constantly-false predicate. -/
def verify_batch (cfg : VerifConfig) (envs : Nat → AttemptEnv) (codes : List String)
    (stop : Nat → Bool) : List VResult × List Action :=
  batchLoop cfg envs stop 0 codes

/-! ## Result sinks (app/utils.py) -/

/-- JSON values as produced by json.dump and recovered by json.load. -/
inductive JValue where
  | jnull
  | jbool (b : Bool)
  | jint (n : Int)
  | jstr (s : String)
  | jarr (xs : List JValue)
  | jobj (fields : List (String × JValue))

/-- One entry of an errors array serialized back to JSON. -/
def encErrEntry : ErrEntry → JValue
  | some r => JValue.jobj [("reason", JValue.jstr r)]
  | none => JValue.jobj []

/-- A parsed body serialized back to JSON. -/
def encodeBody : Body → JValue
  | .jdict none => JValue.jobj []
  | .jdict (some es) => JValue.jobj [("errors", JValue.jarr (es.map encErrEntry))]
  | .jtext s => JValue.jstr s

/-- An optional string serialized to JSON (None becomes null). -/
def encOptStr : Option String → JValue
  | some s => JValue.jstr s
  | none => JValue.jnull

/-- One result dictionary serialized to JSON, fields in the insertion
order of the dictionary literal in verify_code. -/
def encodeResult (r : VResult) : JValue :=
  JValue.jobj
    [ ("ok", JValue.jbool r.ok)
    , ("status", JValue.jint r.status)
    , ("delay_sec", JValue.jint r.delay_sec)
    , ("elapsed_ms", JValue.jint r.elapsed_ms)
    , ("body", match r.body with | some b => encodeBody b | none => JValue.jnull)
    , ("error", encOptStr r.error)
    , ("code", JValue.jstr r.code)
    , ("success", JValue.jbool r.success) ]

/-- app/utils.py write_results_to_json: the document written to the
output file is the object with the total count and the results array in
attempt order.  json.dump followed by json.load is the identity on this
value, so the written document is modelled at the value level. -/
def write_results_to_json (rs : List VResult) : JValue :=
  JValue.jobj
    [ ("total", JValue.jint (rs.length : Int))
    , ("results", JValue.jarr (rs.map encodeResult)) ]

/-- Key lookup on a parsed JSON object. -/
def jlookup (j : JValue) (key : String) : Option JValue :=
  match j with
  | JValue.jobj fields =>
    match List.find? (fun p => p.1 = key) fields with
    | some p => some p.2
    | none => none
  | _ => none

/-- Array items of a parsed JSON value. -/
def jarrItems : JValue → Option (List JValue)
  | JValue.jarr xs => some xs
  | _ => none

/-- Escape of a character inside a json.dumps string literal (quote and
backslash; other characters pass through). -/
def jsonEscapeChar (c : Char) : List Char :=
  if c = dq || c = Char.ofNat 92 then [Char.ofNat 92, c] else [c]

/-- json.dumps escaping of a string body. -/
def jsonEscape (s : String) : String :=
  String.mk (s.data.foldr (fun c acc => jsonEscapeChar c ++ acc) [])

/-- json.dumps of one errors entry. -/
def dumpsErrEntry : ErrEntry → String
  | none => "\x7b\x7d"
  | some r => "\x7b\"reason\": \"" ++ jsonEscape r ++ "\"\x7d"

/-- Comma-space joined json.dumps items. -/
def dumpsJoin : List String → String
  | [] => ""
  | [x] => x
  | x :: y :: ys => x ++ ", " ++ dumpsJoin (y :: ys)

/-- json.dumps of a dict body as flattened into the CSV response
column. -/
def dumpsBody : Body → String
  | .jdict none => "\x7b\x7d"
  | .jdict (some es) =>
    "\x7b\"errors\": [" ++ dumpsJoin (es.map dumpsErrEntry) ++ "]\x7d"
  | .jtext s => s

/-- The response cell of one CSV row: dict bodies are json.dumps-ed,
text bodies pass through str, and an absent body (Python None fetched by
result.get) prints as None. -/
def responseCell : Option Body → String
  | some b => dumpsBody b
  | none => "None"

/-- Python str of a bool. -/
def pyStrBool (b : Bool) : String := if b then "True" else "False"

/-- The fixed CSV header row of write_results_to_csv. -/
def csvHeader : List String :=
  ["no", "code", "http_status", "delay_sec", "elapsed_ms", "response", "success"]

/-- One CSV data row for the result at 1-based position idx. -/
def csvRow (idx : Nat) (r : VResult) : List String :=
  [ toString idx, r.code, toString r.status, toString r.delay_sec
  , toString r.elapsed_ms, responseCell r.body, pyStrBool r.success ]

/-- The row loop of write_results_to_csv: enumerate from the given
1-based index. -/
def csvRows (idx : Nat) : List VResult → List (List String)
  | [] => []
  | r :: rest => csvRow idx r :: csvRows (idx + 1) rest

/-- app/utils.py write_results_to_csv: on an empty results list return
without touching the filesystem (none — no file, not even a header);
otherwise the file written holds the header row followed by one data row
per result in attempt order, numbered from 1. -/
def write_results_to_csv (rs : List VResult) : Option (List (List String)) :=
  if rs = [] then none
  else some (csvHeader :: csvRows 1 rs)

/-! ## Sample values used by concrete scenarios and witnesses -/

/-- A delay configuration matching Config.MIN_DELAY_SEC and
Config.MAX_DELAY_SEC. -/
def cfg0 : VerifConfig := { min_delay := 1, max_delay := 5 }

/-- An environment whose attempt succeeds with a plain 200 response. -/
def envGood : AttemptEnv :=
  { delayDraw := 3, outcome := .response 200 (Body.jdict none), elapsedMs := 10 }

/-- A Playwright timeout exception as raised by expect_response. -/
def excTimeout : AttemptExc := { isTimeout := true, msg := "Timeout 15000ms exceeded." }

/-- An environment whose attempt raises the timeout exception. -/
def envExc : AttemptEnv := { delayDraw := 2, outcome := .raised excTimeout, elapsedMs := 7 }

/-- A page carrying both a data-crumb attribute (value AAA) and a
script-embedded quoted crumb assignment (value BBB). -/
def pageBoth : Page :=
  { elems := [[("id", "x".data)], [("data-crumb", "AAA".data)]]
  , scripts := [" var x = 1; \"crumb\": \"BBB\" ;".data]
  , raw := "zzz \"crumb\": \"BBB\" zzz".data }

/-- A single browser jar holding client_id and session but no identity
cookie. -/
def jarsCS : List (Option (List (String × String))) :=
  [some [("client_id", "C"), ("session", "S")]]

/-- A sample successful verification result. -/
def res0 : VResult :=
  { ok := true, status := 200, delay_sec := 3, elapsed_ms := 10, body := some (Body.jdict none)
  , error := none, code := "GOODCODE", success := true }

end BCV

/-! ## Supporting lemmas -/

namespace BCV

/-- Normalization is the identity on carriage-return-free text. -/
theorem normalizeNewlines_no_cr (l : List Char) (h : ∀ c ∈ l, c ≠ '\r') :
    normalizeNewlines l = l := by
  induction l with
  | nil => rfl
  | cons c rest ih =>
    have hc : c ≠ '\r' := h c (List.mem_cons_self _ _)
    have hrest : ∀ x ∈ rest, x ≠ '\r' := fun x hx => h x (List.mem_cons_of_mem _ hx)
    rw [normalizeNewlines.eq_4 c rest (fun _ hcr _ => hc hcr) hc, ih hrest]

/-- Normalized text carries no carriage return. -/
theorem no_cr_normalizeNewlines (l : List Char) : ∀ c ∈ normalizeNewlines l, c ≠ '\r' := by
  induction l using normalizeNewlines.induct with
  | case1 => intro c hc; rw [normalizeNewlines.eq_1] at hc; simp at hc
  | case2 rest ih =>
    intro c hc
    rw [normalizeNewlines.eq_2] at hc
    rcases List.mem_cons.mp hc with h | h
    · subst h; decide
    · exact ih c h
  | case3 rest hne ih =>
    intro c hc
    rw [normalizeNewlines.eq_3 rest hne] at hc
    rcases List.mem_cons.mp hc with h | h
    · subst h; decide
    · exact ih c h
  | case4 c0 rest hne1 hne2 ih =>
    intro c hc
    rw [normalizeNewlines.eq_4 c0 rest hne1 hne2] at hc
    rcases List.mem_cons.mp hc with h | h
    · subst h; exact hne2
    · exact ih c h

/-- A split never yields the empty list of lines. -/
theorem splitNl_ne_nil (s : List Char) : splitNl s ≠ [] := by
  induction s using splitNl.induct with
  | case1 => rw [splitNl.eq_1]; simp
  | case2 rest ih => rw [splitNl.eq_2]; simp
  | case3 c rest hne hsp ih => exact absurd hsp ih
  | case4 c rest hne line more hsp ih =>
    rw [splitNl.eq_3 c rest hne, hsp]
    simp

/-- Splitting text of the shape line-LF-rest peels the newline-free
line off the front. -/
theorem splitNl_append_nl (x r : List Char) (hx : '\n' ∉ x) :
    splitNl (x ++ '\n' :: r) = x :: splitNl r := by
  induction x with
  | nil => rw [List.nil_append, splitNl.eq_2]
  | cons c xs ih =>
    have hc : c ≠ '\n' := fun hcn => hx (hcn ▸ List.mem_cons_self _ _)
    have hxs : '\n' ∉ xs := fun hm => hx (List.mem_cons_of_mem _ hm)
    rw [List.cons_append, splitNl.eq_3 c _ hc, ih hxs]

/-- Newline-free text splits into itself as the single line. -/
theorem splitNl_of_no_nl (x : List Char) (hx : '\n' ∉ x) : splitNl x = [x] := by
  induction x with
  | nil => rw [splitNl.eq_1]
  | cons c xs ih =>
    have hc : c ≠ '\n' := fun hcn => hx (hcn ▸ List.mem_cons_self _ _)
    have hxs : '\n' ∉ xs := fun hm => hx (List.mem_cons_of_mem _ hm)
    rw [splitNl.eq_3 c _ hc, ih hxs]

/-- Every character of every line of a split comes from the split text
and is not a newline. -/
theorem splitNl_line_chars (s : List Char) :
    ∀ line ∈ splitNl s, ∀ c ∈ line, c ∈ s ∧ c ≠ '\n' := by
  induction s using splitNl.induct with
  | case1 =>
    intro line hline c hc
    rw [splitNl.eq_1] at hline
    simp at hline
    subst hline
    simp at hc
  | case2 rest ih =>
    intro line hline c hc
    rw [splitNl.eq_2] at hline
    rcases List.mem_cons.mp hline with h | h
    · subst h; simp at hc
    · have := ih line h c hc
      exact ⟨List.mem_cons_of_mem _ this.1, this.2⟩
  | case3 c0 rest hne hsp ih =>
    intro line hline c hc
    exact absurd hsp (splitNl_ne_nil rest)
  | case4 c0 rest hne line0 more hsp ih =>
    intro line hline c hc
    rw [splitNl.eq_3 c0 rest hne, hsp] at hline
    rcases List.mem_cons.mp hline with h | h
    · subst h
      rcases List.mem_cons.mp hc with h2 | h2
      · subst h2; exact ⟨List.mem_cons_self _ _, hne⟩
      · have := ih line0 (hsp ▸ List.mem_cons_self _ _) c h2
        exact ⟨List.mem_cons_of_mem _ this.1, this.2⟩
    · have := ih line (hsp ▸ List.mem_cons_of_mem _ h) c hc
      exact ⟨List.mem_cons_of_mem _ this.1, this.2⟩

/-- Every character of a join is a newline or a character of one of the
joined codes. -/
theorem mem_joinNl (codes : List (List Char)) :
    ∀ ch ∈ joinNl codes, ch = '\n' ∨ ∃ c ∈ codes, ch ∈ c := by
  induction codes using joinNl.induct with
  | case1 => intro ch hch; rw [joinNl.eq_1] at hch; simp at hch
  | case2 x =>
    intro ch hch
    rw [joinNl.eq_2] at hch
    exact Or.inr ⟨x, List.mem_cons_self _ _, hch⟩
  | case3 x y ys ih =>
    intro ch hch
    rw [joinNl.eq_3] at hch
    rcases List.mem_append.mp hch with h | h
    · exact Or.inr ⟨x, List.mem_cons_self _ _, h⟩
    · rcases List.mem_cons.mp h with h2 | h2
      · exact Or.inl h2
      · rcases ih ch h2 with h3 | ⟨c, hc, hch2⟩
        · exact Or.inl h3
        · exact Or.inr ⟨c, List.mem_cons_of_mem _ hc, hch2⟩

/-- Stripping only removes characters. -/
theorem pyStrip_chars (s : List Char) : ∀ c ∈ pyStrip s, c ∈ s := by
  intro c hc
  have h1 : (lstrip s).Sublist s := List.dropWhile_sublist _
  have h2 : (pyStrip s).Sublist (lstrip s) := by
    have h0 := List.dropWhile_sublist (l := (lstrip s).reverse) (p := isPySpace)
    have h3 := h0.reverse
    rw [List.reverse_reverse] at h3
    exact h3
  exact h1.mem (h2.mem hc)

/-- Truncation only removes characters. -/
theorem take_chars (n : Nat) (s : List Char) : ∀ c ∈ s.take n, c ∈ s :=
  fun c hc => (List.take_sublist n s).mem hc

/-- A non-empty, strip-fixed code short enough for the cap passes
through the per-line sanitization unchanged. -/
theorem sanitizeLine_fix (maxLength : Nat) (c : List Char)
    (hfix : pyStrip c = c) (hne : c ≠ []) (hlen : c.length ≤ maxLength) :
    sanitizeLine maxLength c = some c := by
  unfold sanitizeLine
  rw [hfix]
  simp [hne, Nat.not_lt.mpr hlen]

/-- filterMap by a function that fixes every list element is the
identity. -/
theorem filterMap_id_of_some {α : Type} (f : α → Option α) (l : List α)
    (h : ∀ x ∈ l, f x = some x) : l.filterMap f = l := by
  induction l with
  | nil => rfl
  | cons x xs ih =>
    rw [List.filterMap_cons, h x (List.mem_cons_self _ _),
      ih (fun y hy => h y (List.mem_cons_of_mem _ hy))]

/-- Every sanitized code is free of CR and LF and within the length
cap. -/
theorem sanitize_codes_mem_facts (raw : List Char) (maxLength : Nat) :
    ∀ c ∈ sanitize_codes raw maxLength, '\n' ∉ c ∧ '\r' ∉ c ∧ c.length ≤ maxLength := by
  intro c hc
  unfold sanitize_codes at hc
  rcases List.mem_filterMap.mp hc with ⟨line, hline, hsan⟩
  unfold sanitizeLine at hsan
  by_cases hstrip : pyStrip line = []
  · simp [hstrip] at hsan
  · have hchars : ∀ ch ∈ c, ch ∈ line := by
      by_cases hlong : (pyStrip line).length > maxLength
      · simp [hstrip, hlong] at hsan
        intro ch hch
        rw [← hsan] at hch
        exact pyStrip_chars line ch (take_chars _ _ ch hch)
      · simp [hstrip, hlong] at hsan
        intro ch hch
        rw [← hsan] at hch
        exact pyStrip_chars line ch hch
    have hlinefacts := splitNl_line_chars (normalizeNewlines raw) line hline
    refine ⟨?_, ?_, ?_⟩
    · intro hnl
      exact (hlinefacts '\n' (hchars _ hnl)).2 rfl
    · intro hcr
      exact no_cr_normalizeNewlines raw '\r' (hlinefacts '\r' (hchars _ hcr)).1 rfl
    · by_cases hlong : (pyStrip line).length > maxLength
      · simp [hstrip, hlong] at hsan
        rw [← hsan]
        simpa using List.length_take_le maxLength (pyStrip line)
      · simp [hstrip, hlong] at hsan
        rw [← hsan]
        exact Nat.not_lt.mp hlong

/-- Splitting undoes joining on a non-empty list of newline-free
codes. -/
theorem splitNl_joinNl (codes : List (List Char)) (hne : codes ≠ [])
    (hnl : ∀ c ∈ codes, '\n' ∉ c) : splitNl (joinNl codes) = codes := by
  induction codes using joinNl.induct with
  | case1 => exact absurd rfl hne
  | case2 x =>
    rw [joinNl.eq_2]
    exact splitNl_of_no_nl x (hnl x (List.mem_cons_self _ _))
  | case3 x y ys ih =>
    rw [joinNl.eq_3, splitNl_append_nl x _ (hnl x (List.mem_cons_self _ _)),
      ih (by simp) (fun c hc => hnl c (List.mem_cons_of_mem _ hc))]

/-- The batch loop never returns more results than remaining codes. -/
theorem batchLoop_length_le (cfg : VerifConfig) (envs : Nat → AttemptEnv) (stop : Nat → Bool) :
    ∀ (codes : List String) (idx : Nat),
      ((batchLoop cfg envs stop idx codes).1).length ≤ codes.length := by
  intro codes
  induction codes with
  | nil => intro idx; simp [batchLoop]
  | cons code rest ih =>
    intro idx
    unfold batchLoop
    by_cases hs : stop idx
    · simp [hs]
    · simp only [hs, ite_false, List.length_cons]
      exact Nat.succ_le_succ (ih (idx + 1))

/-- Under a never-true stop flag the batch loop covers every code. -/
theorem batchLoop_length_eq (cfg : VerifConfig) (envs : Nat → AttemptEnv) (stop : Nat → Bool)
    (hstop : ∀ i, stop i = false) :
    ∀ (codes : List String) (idx : Nat),
      ((batchLoop cfg envs stop idx codes).1).length = codes.length := by
  intro codes
  induction codes with
  | nil => intro idx; simp [batchLoop]
  | cons code rest ih =>
    intro idx
    unfold batchLoop
    simp only [hstop idx, ite_false, List.length_cons]
    exact congrArg Nat.succ (ih (idx + 1))

/-- A browser loop that reports success stops in a state where all
three cookies are truthy. -/
theorem browserLoop_true (jars : List (Option (List (String × String)))) :
    ∀ (st st1 : ExtractorState), browserLoop st jars = (true, st1) →
      allThreeCookies st1 = true := by
  induction jars with
  | nil => intro st st1 h; exact absurd h (by simp [browserLoop])
  | cons j rest ih =>
    intro st st1 h
    cases j with
    | none => exact ih st st1 h
    | some jar =>
      unfold browserLoop at h
      by_cases hall : allThreeCookies (applyJar st jar)
      · rw [if_pos hall] at h
        rw [Prod.mk.injEq] at h
        exact h.2 ▸ hall
      · rw [if_neg hall] at h
        exact ih _ _ h

/-- Crumb extraction leaves the state alone or only records the crumb. -/
theorem crumb_state_cases (scr : Bool) (st : ExtractorState) (nav : Option Page) :
    (extract_crumb_from_page scr st nav).2 = st ∨
    ∃ v, (extract_crumb_from_page scr st nav).2 = { st with crumb := some v } := by
  unfold extract_crumb_from_page
  split
  · exact Or.inl rfl
  split
  · exact Or.inl rfl
  split
  · exact Or.inl rfl
  split
  · exact Or.inr ⟨_, rfl⟩
  · exact Or.inl rfl

/-- The CSV row loop preserves positions, numbering each row by the
enumeration start plus its offset. -/
theorem csvRows_get (rs : List VResult) :
    ∀ (idx i : Nat) (r : VResult), rs.get? i = some r →
      (csvRows idx rs).get? i = some (csvRow (idx + i) r) := by
  induction rs with
  | nil => intro idx i r h; simp at h
  | cons r0 rest ih =>
    intro idx i r h
    cases i with
    | zero =>
      simp only [List.get?] at h
      injection h with h
      subst h
      rfl
    | succ i2 =>
      simp only [List.get?] at h
      have h2 := ih (idx + 1) i2 r h
      simpa [csvRows, Nat.add_assoc, Nat.add_comm 1 i2] using h2

/-- The CSV row loop emits one row per result. -/
theorem csvRows_length (rs : List VResult) : ∀ idx, (csvRows idx rs).length = rs.length := by
  induction rs with
  | nil => intro idx; rfl
  | cons r0 rest ih => intro idx; simp [csvRows, ih]

end BCV

/-! ## Claim theorems -/

namespace BCV

/-- Claim C1: for every verification result of verify_code, success
implies the HTTP status lies in the half-open interval from 200 to 300
and the response body carries no non-empty errors list; and a stubbed
200 response whose body holds one error with reason "already redeemed"
yields success false, status 200, and error "already redeemed". -/
theorem claim_C1 :
    (∀ (cfg : VerifConfig) (env : AttemptEnv) (code : String),
      (verify_code cfg env code).1.success = true →
      200 ≤ (verify_code cfg env code).1.status ∧ (verify_code cfg env code).1.status < 300 ∧
      ∀ b, (verify_code cfg env code).1.body = some b → b.errorsTruthy = false)
    ∧ (∀ (cfg : VerifConfig) (d : Int) (t : Nat),
      (verify_code cfg ⟨d, .response 200 (Body.jdict (some [some "already redeemed"])), t⟩
          "USEDCODE").1.success = false
      ∧ (verify_code cfg ⟨d, .response 200 (Body.jdict (some [some "already redeemed"])), t⟩
          "USEDCODE").1.status = 200
      ∧ (verify_code cfg ⟨d, .response 200 (Body.jdict (some [some "already redeemed"])), t⟩
          "USEDCODE").1.error = some "already redeemed") := by
  constructor
  · intro cfg env code
    unfold verify_code
    cases hval : validate_input_code code with
    | some msg => intro h; simp at h
    | none =>
      cases ho : env.outcome with
      | response st body =>
        intro h
        simp only at h
        rw [Bool.and_eq_true, Bool.and_eq_true, decide_eq_true_eq, decide_eq_true_eq,
          Bool.not_eq_true'] at h
        obtain ⟨⟨h1, h2⟩, h3⟩ := h
        refine ⟨h1, h2, ?_⟩
        intro b hb
        simp only [Option.some.injEq] at hb
        rw [← hb]
        exact h3
      | raised e => intro h; simp at h
  · intro cfg d t
    exact ⟨rfl, rfl, rfl⟩

/-- Witness for C1 at a concrete successful attempt. -/
theorem claim_C1_witness :
    200 ≤ (verify_code cfg0 envGood "GOODCODE").1.status
    ∧ (verify_code cfg0 envGood "GOODCODE").1.status < 300
    ∧ ∀ b, (verify_code cfg0 envGood "GOODCODE").1.body = some b → b.errorsTruthy = false :=
  claim_C1.1 cfg0 envGood "GOODCODE" (by decide)

/-- Claim C2: verify_batch never returns more results than input codes,
returns exactly one result per code when the stop flag never signals,
and on a 5-code batch whose stop flag first signals at the check before
the third attempt returns exactly the first two results in input order,
with an action trace showing only the first two codes were attempted. -/
theorem claim_C2 :
    (∀ (cfg : VerifConfig) (envs : Nat → AttemptEnv) (codes : List String) (stop : Nat → Bool),
      ((verify_batch cfg envs codes stop).1).length ≤ codes.length)
    ∧ (∀ (cfg : VerifConfig) (envs : Nat → AttemptEnv) (codes : List String) (stop : Nat → Bool),
      (∀ i, stop i = false) →
      ((verify_batch cfg envs codes stop).1).length = codes.length)
    ∧ (∀ (cfg : VerifConfig) (envs : Nat → AttemptEnv),
      verify_batch cfg envs ["AAAA", "BBBB", "CCCC", "DDDD", "EEEE"] (fun i => decide (2 ≤ i))
        = ([(verify_code cfg (envs 0) "AAAA").1, (verify_code cfg (envs 1) "BBBB").1],
           (verify_code cfg (envs 0) "AAAA").2 ++ (verify_code cfg (envs 1) "BBBB").2)) := by
  refine ⟨?_, ?_, ?_⟩
  · intro cfg envs codes stop
    exact batchLoop_length_le cfg envs stop codes 0
  · intro cfg envs codes stop hstop
    exact batchLoop_length_eq cfg envs stop hstop codes 0
  · intro cfg envs
    simp [verify_batch, batchLoop]

/-- Witness for C2 on a one-code batch with a never-true stop flag. -/
theorem claim_C2_witness :
    ((verify_batch cfg0 (fun _ => envGood) ["XCODE"] (fun _ => false)).1).length = 1 :=
  claim_C2.2.1 cfg0 (fun _ => envGood) ["XCODE"] (fun _ => false) (fun _ => rfl)

/-- Claim C3: a code that is empty after stripping makes verify_code
return immediately with delay_sec 0, elapsed_ms 0, success false and the
invalid-code error, taking no external action (no delay, no browser or
network activity), independently of the environment. -/
theorem claim_C3 :
    ∀ (cfg : VerifConfig) (env : AttemptEnv) (code : String), pyStrip code.data = [] →
      verify_code cfg env code =
        ({ ok := false, status := 0, delay_sec := 0, elapsed_ms := 0, body := none,
           error := some "Invalid code: Code cannot be empty", code := code, success := false },
         []) := by
  intro cfg env code h
  unfold verify_code validate_input_code
  rw [if_pos h]
  rfl

/-- Witness for C3 on a whitespace-only code. -/
theorem claim_C3_witness :
    verify_code cfg0 envGood "   " =
      ({ ok := false, status := 0, delay_sec := 0, elapsed_ms := 0, body := none,
         error := some "Invalid code: Code cannot be empty", code := "   ", success := false },
       []) :=
  claim_C3 cfg0 envGood "   " (by decide)

/-- Claim C4: for every attempted code, if the randint draw lies in the
configured inclusive delay range (the randint contract), the result's
delay_sec equals the draw and lies in that range, elapsed_ms is
nonnegative, and the action trace is the sleep of that draw followed by
the single attempt — the delay precedes the attempt. -/
theorem claim_C4 :
    ∀ (cfg : VerifConfig) (env : AttemptEnv) (code : String), pyStrip code.data ≠ [] →
      cfg.min_delay ≤ env.delayDraw → env.delayDraw ≤ cfg.max_delay →
      (verify_code cfg env code).1.delay_sec = env.delayDraw
      ∧ cfg.min_delay ≤ (verify_code cfg env code).1.delay_sec
      ∧ (verify_code cfg env code).1.delay_sec ≤ cfg.max_delay
      ∧ 0 ≤ (verify_code cfg env code).1.elapsed_ms
      ∧ (verify_code cfg env code).2 = [Action.sleep env.delayDraw, Action.attempt code] := by
  intro cfg env code h hmin hmax
  unfold verify_code validate_input_code
  rw [if_neg h]
  cases env.outcome with
  | response st body => exact ⟨rfl, hmin, hmax, Int.ofNat_nonneg _, rfl⟩
  | raised e => exact ⟨rfl, hmin, hmax, Int.ofNat_nonneg _, rfl⟩

/-- Witness for C4 at a concrete attempt. -/
theorem claim_C4_witness :
    (verify_code cfg0 envGood "GOODCODE").1.delay_sec = envGood.delayDraw
    ∧ cfg0.min_delay ≤ (verify_code cfg0 envGood "GOODCODE").1.delay_sec
    ∧ (verify_code cfg0 envGood "GOODCODE").1.delay_sec ≤ cfg0.max_delay
    ∧ 0 ≤ (verify_code cfg0 envGood "GOODCODE").1.elapsed_ms
    ∧ (verify_code cfg0 envGood "GOODCODE").2
        = [Action.sleep envGood.delayDraw, Action.attempt "GOODCODE"] :=
  claim_C4 cfg0 envGood "GOODCODE" (by decide) (by decide) (by decide)

/-- Claim C5: crumb extraction is a fixed, ordered fallback cascade and
the data-crumb attribute extractor wins over every later pattern: when
any element carries the attribute, its value is the extracted crumb; in
particular on a page carrying both a data-crumb attribute (AAA) and a
script-embedded quoted crumb (BBB), AAA is extracted even though the
script pattern alone would find BBB. -/
theorem claim_C5 :
    (∀ (page : Page) (v : List Char), findDataCrumb page.elems = some v →
      extractCrumbFromHtml page = some v)
    ∧ extractCrumbFromHtml pageBoth = some "AAA".data
    ∧ scanScripts pageBoth.scripts = some "BBB".data := by
  refine ⟨?_, by decide, by decide⟩
  intro page v h
  unfold extractCrumbFromHtml
  rw [h]

/-- Witness for C5 on the two-pattern page. -/
theorem claim_C5_witness :
    extractCrumbFromHtml pageBoth = some "AAA".data :=
  claim_C5.1 pageBoth "AAA".data (by decide)

/-- Counterexample to C6 as stated: a jar holding client_id and session
but no identity cookie leaves both cookies extracted in the working
state, yet auto_extract returns success false with the empty credentials
dictionary — the obtained subset is discarded and success is false even
though neither client_id nor session is missing. -/
theorem claim_C6_counterexample :
    (extract_from_browser true initExtractor jarsCS).2.client_id = some "C"
    ∧ (extract_from_browser true initExtractor jarsCS).2.session = some "S"
    ∧ auto_extract true true initExtractor jarsCS none = (false, none) :=
  ⟨by decide, by decide, by decide⟩

/-- Claim C6 as amended: when browser cookie extraction fails (which
includes the case that client_id and session were found but identity was
not), auto_extract returns false with the empty dictionary, discarding
any partially extracted cookies; when it succeeds, auto_extract returns
success true together with the full dictionary carrying client_id and
session, irrespective of whether crumb extraction succeeded — crumb
failure alone never makes success false. -/
theorem claim_C6 :
    (∀ (avail scr : Bool) (st : ExtractorState) (jars : List (Option (List (String × String))))
        (nav : Option Page),
      (extract_from_browser avail st jars).1 = false →
      auto_extract avail scr st jars nav = (false, none))
    ∧ (∀ (avail scr : Bool) (st st1 : ExtractorState)
        (jars : List (Option (List (String × String)))) (nav : Option Page),
      extract_from_browser avail st jars = (true, st1) →
      ∃ cr, auto_extract avail scr st jars nav =
        (true, some { client_id := st1.client_id.getD "", session := st1.session.getD "",
                      crumb := cr })) := by
  constructor
  · intro avail scr st jars nav h
    unfold auto_extract
    cases he : extract_from_browser avail st jars with
    | mk b st2 =>
      rw [he] at h
      simp only at h
      subst h
      rfl
  · intro avail scr st st1 jars nav h
    have hall : allThreeCookies st1 = true := by
      unfold extract_from_browser at h
      by_cases ha : avail
      · rw [if_neg (by simp [ha])] at h
        exact browserLoop_true jars st st1 h
      · rw [if_pos (by simp [ha])] at h
        rw [Prod.mk.injEq] at h
        exact absurd h.1.symm (by simp)
    rw [allThreeCookies, Bool.and_eq_true, Bool.and_eq_true] at hall
    obtain ⟨⟨hcid, hsess⟩, -⟩ := hall
    have hpres := crumb_state_cases scr st1 nav
    unfold auto_extract
    rw [h]
    dsimp only
    rcases hpres with hp | ⟨v, hp⟩
    · rw [hp, hcid, hsess]
      exact ⟨_, rfl⟩
    · rw [hp]
      dsimp only
      rw [hcid, hsess]
      exact ⟨_, rfl⟩

/-- Witness for C6 on an empty jar list. -/
theorem claim_C6_witness :
    auto_extract true true initExtractor [] none = (false, none) :=
  claim_C6.1 true true initExtractor [] none rfl

/-- Counterexample to C7 as stated: a timeout exception and a
non-timeout exception with the same message produce identical results —
there is no distinct timeout tag — the error carries the generic
browser-automation prefix rather than a request-error or timeout tag,
and even a 503 response triggers exactly one attempt with no retry. -/
theorem claim_C7_counterexample :
    verify_code cfg0 ⟨2, .raised ⟨true, "Timeout 15000ms exceeded."⟩, 7⟩ "SOMECODE"
      = verify_code cfg0 ⟨2, .raised ⟨false, "Timeout 15000ms exceeded."⟩, 7⟩ "SOMECODE"
    ∧ (verify_code cfg0 envExc "SOMECODE").1.error
        = some "Browser automation error: Timeout 15000ms exceeded."
    ∧ (verify_code cfg0 ⟨2, .response 503 (Body.jdict none), 7⟩ "SOMECODE").2
        = [Action.sleep 2, Action.attempt "SOMECODE"] :=
  ⟨by decide, by decide, by decide⟩

/-- Claim C7 as amended: every exception raised during the attempt,
timeouts included, is caught by the single generic handler and yields a
failure result with status 0, no body, success false and the error
string prefixed Browser automation error followed by the exception
message, independently of whether the exception was a timeout; and every
attempted code triggers exactly one attempt — there is no
transport-level retry for any status. -/
theorem claim_C7 :
    (∀ (cfg : VerifConfig) (env : AttemptEnv) (code : String) (e : AttemptExc),
      pyStrip code.data ≠ [] → env.outcome = .raised e →
      verify_code cfg env code =
        ({ ok := false, status := 0, delay_sec := env.delayDraw,
           elapsed_ms := (env.elapsedMs : Int), body := none,
           error := some ("Browser automation error: " ++ e.msg), code := code,
           success := false },
         [Action.sleep env.delayDraw, Action.attempt code]))
    ∧ (∀ (cfg : VerifConfig) (env : AttemptEnv) (code : String), pyStrip code.data ≠ [] →
      (verify_code cfg env code).2 = [Action.sleep env.delayDraw, Action.attempt code]) := by
  constructor
  · intro cfg env code e h ho
    unfold verify_code validate_input_code
    rw [if_neg h, ho]
  · intro cfg env code h
    unfold verify_code validate_input_code
    rw [if_neg h]
    cases env.outcome with
    | response st body => rfl
    | raised e => rfl

/-- Witness for C7 on the concrete timeout environment. -/
theorem claim_C7_witness :
    verify_code cfg0 envExc "SOMECODE" =
      ({ ok := false, status := 0, delay_sec := envExc.delayDraw,
         elapsed_ms := (envExc.elapsedMs : Int), body := none,
         error := some ("Browser automation error: " ++ excTimeout.msg), code := "SOMECODE",
         success := false },
       [Action.sleep envExc.delayDraw, Action.attempt "SOMECODE"]) :=
  claim_C7.1 cfg0 envExc "SOMECODE" excTimeout (by decide) rfl

set_option maxRecDepth 8000 in
/-- Counterexample to C8 as stated: truncation at the length cap can cut
a code so that it ends in whitespace, and re-sanitizing the joined
output then strips that whitespace — sanitization is not idempotent.
The failing input is a 257-character line whose 256th character is a
space, at the default cap 256. -/
theorem claim_C8_counterexample :
    sanitize_codes (joinNl (sanitize_codes (List.replicate 255 'a' ++ [ ' ', 'b' ]) 256)) 256
      ≠ sanitize_codes (List.replicate 255 'a' ++ [ ' ', 'b' ]) 256 := by decide

set_option maxRecDepth 8000 in
/-- Claim C8 as amended: sanitize_codes is idempotent on the
newline-joined output of a previous sanitization provided every produced
code is non-empty and strip-fixed (which truncation at the cap can
violate by exposing trailing whitespace); the blank-line scenario and
the truncate-to-256 scenario hold as stated. -/
theorem claim_C8 :
    (∀ (raw : List Char) (maxLength : Nat),
      (∀ c ∈ sanitize_codes raw maxLength, pyStrip c = c ∧ c ≠ []) →
      sanitize_codes (joinNl (sanitize_codes raw maxLength)) maxLength
        = sanitize_codes raw maxLength)
    ∧ sanitize_codes "ABC123\n\nXYZ789\n".data 256 = ["ABC123".data, "XYZ789".data]
    ∧ sanitize_codes (List.replicate 300 'A') 256 = [List.replicate 256 'A'] := by
  refine ⟨?_, by decide, by decide⟩
  intro raw maxLength H
  have hmem := sanitize_codes_mem_facts raw maxLength
  generalize hcodes : sanitize_codes raw maxLength = codes at H hmem ⊢
  cases codes with
  | nil =>
    simp [sanitize_codes, sanitizeLine, pyStrip, lstrip, rstrip, joinNl, normalizeNewlines,
      splitNl]
  | cons c0 rest =>
    have hnz : c0 :: rest ≠ [] := by simp
    have hnocr : ∀ ch ∈ joinNl (c0 :: rest), ch ≠ '\r' := by
      intro ch hch
      rcases mem_joinNl _ ch hch with h | ⟨cx, hcx, hchx⟩
      · subst h; decide
      · intro h2; subst h2; exact (hmem cx hcx).2.1 hchx
    have hnonl : ∀ cx ∈ c0 :: rest, '\n' ∉ cx := fun cx hcx => (hmem cx hcx).1
    unfold sanitize_codes
    rw [normalizeNewlines_no_cr _ hnocr, splitNl_joinNl _ hnz hnonl]
    exact filterMap_id_of_some _ _
      (fun cx hcx => sanitizeLine_fix maxLength cx (H cx hcx).1 (H cx hcx).2 (hmem cx hcx).2.2)

/-- Witness for C8 on a two-line input needing no truncation. -/
theorem claim_C8_witness :
    sanitize_codes (joinNl (sanitize_codes "AB\nCD".data 256)) 256
      = sanitize_codes "AB\nCD".data 256 :=
  claim_C8.1 "AB\nCD".data 256 (by decide)

/-- Claim C9: re-parsing the JSON document written by
write_results_to_json yields a total equal to the number of input
results and a results array of the same length preserving attempt order,
whose i-th entry carries the i-th input's code and success values. -/
theorem claim_C9 :
    ∀ rs : List VResult,
      jlookup (write_results_to_json rs) "total" = some (JValue.jint (rs.length : Int))
      ∧ (jlookup (write_results_to_json rs) "results").bind jarrItems
          = some (rs.map encodeResult)
      ∧ (rs.map encodeResult).length = rs.length
      ∧ ∀ (i : Nat) (r : VResult), rs.get? i = some r →
          ∃ j, (rs.map encodeResult).get? i = some j
            ∧ jlookup j "code" = some (JValue.jstr r.code)
            ∧ jlookup j "success" = some (JValue.jbool r.success) := by
  intro rs
  refine ⟨rfl, rfl, List.length_map rs encodeResult, ?_⟩
  intro i r h
  refine ⟨encodeResult r, ?_, rfl, rfl⟩
  rw [List.get?_map, h]
  rfl

/-- Witness for C9 on a one-result list. -/
theorem claim_C9_witness :
    ∃ j, ([res0].map encodeResult).get? 0 = some j
      ∧ jlookup j "code" = some (JValue.jstr res0.code)
      ∧ jlookup j "success" = some (JValue.jbool res0.success) :=
  (claim_C9 [res0]).2.2.2 0 res0 rfl

/-- Claim C10: write_results_to_csv writes no file at all on an empty
results list — not even the header row — and for a non-empty list writes
the fixed header followed by one row per result in attempt order, with
1-based numbering in the first column, the code in the second, and the
Python-str success flag in the last. -/
theorem claim_C10 :
    write_results_to_csv [] = none
    ∧ csvHeader = ["no", "code", "http_status", "delay_sec", "elapsed_ms", "response", "success"]
    ∧ (∀ rs : List VResult, rs ≠ [] → write_results_to_csv rs = some (csvHeader :: csvRows 1 rs))
    ∧ (∀ rs : List VResult, (csvRows 1 rs).length = rs.length)
    ∧ (∀ (rs : List VResult) (i : Nat) (r : VResult), rs.get? i = some r →
        (csvRows 1 rs).get? i = some (csvRow (1 + i) r)
        ∧ (csvRow (1 + i) r).get? 0 = some (toString (1 + i))
        ∧ (csvRow (1 + i) r).get? 1 = some r.code
        ∧ (csvRow (1 + i) r).get? 6 = some (pyStrBool r.success)) := by
  refine ⟨rfl, rfl, ?_, ?_, ?_⟩
  · intro rs h
    unfold write_results_to_csv
    rw [if_neg h]
  · intro rs
    exact csvRows_length rs 1
  · intro rs i r h
    exact ⟨csvRows_get rs 1 i r h, rfl, rfl, rfl⟩

/-- Witness for C10 on a one-result list. -/
theorem claim_C10_witness :
    write_results_to_csv [res0] = some (csvHeader :: csvRows 1 [res0]) :=
  claim_C10.2.2.1 [res0] (by simp)

end BCV
